import Mathlib

/-!
Verification of the LS-ENGINE game-state derivation and combat-math engine.

This file shallowly embeds the deterministic computations of the repository
(combat damage, phase detection, level derivation, flee/ambush chances,
beast classification, market parsing, combat-outcome estimation and the
unified activity feed ordering) as Lean definitions, and proves the stated
properties about them.

Conventions:
- JavaScript numbers are modelled as `ℕ`/`ℤ` where the source only ever
  holds integers, and as `ℚ` where fractional intermediate values occur
  (`* 1.5`, unfloored percentages, average damage). `Math.floor` is `⌊·⌋`
  (or `ℕ` division on non-negative integers), `Math.ceil` is `⌈·⌉`.
- `null`/`undefined`/absent row fields are modelled with `Option`.
- JS string truthiness (empty string is falsy) is modelled by `jsStr`.
- `String.prototype.includes` is modelled by `jsIncludes` (substring test).
- Item/beast special names ("prefix"/"suffix" modifiers) are carried as
  `Option String` values named `pre`/`suf`; the fixed name tables they are
  drawn from live in constant modules and play no role in the properties
  proved here, which only compare the resolved names for equality.
-/

namespace LS

/-- JS truthiness of a nullable string: present and non-empty. -/
def jsStr (o : Option String) : Bool :=
  match o with
  | some s => s ≠ ""
  | none => false

/-- `String.prototype.includes`: the second string occurs inside the first. -/
def jsIncludes (s sub : String) : Bool :=
  decide (sub.toList <:+: s.toList)

/-- The special-name match test used throughout the combat code:
`a && a === b` on nullable strings (left side truthy and equal to right). -/
def specialMatch (a b : Option String) : Bool :=
  jsStr a && a == b

/-- `MIN_DAMAGE` from `src/src/utils/format.ts` (game utils). -/
def MIN_DAMAGE : ℤ := 4

/-- `BEAST_MIN_DAMAGE` from `src/src/utils/format.ts` (game utils). -/
def BEAST_MIN_DAMAGE : ℤ := 2

/-- `calculateLevel` from `src/src/utils/format.ts` (game utils):
`xp === 0` is special-cased to level 1, otherwise `Math.floor(Math.sqrt(xp))`. -/
def calculateLevel (xp : ℕ) : ℕ :=
  if xp = 0 then 1 else Nat.sqrt xp

/-- `elementalAdjustedDamage` from `src/src/utils/format.ts` (game utils):
rock-paper-scissors adjustment of `base_attack` by ±⌊base_attack/2⌋. -/
def elementalAdjustedDamage (base_attack : ℕ) (weapon_type armor_type : String) : ℕ :=
  let elemental_effect := base_attack / 2
  if (weapon_type = "Magic" ∧ armor_type = "Metal") ∨
     (weapon_type = "Blade" ∧ armor_type = "Cloth") ∨
     (weapon_type = "Bludgeon" ∧ armor_type = "Hide") then
    base_attack + elemental_effect
  else if (weapon_type = "Magic" ∧ armor_type = "Hide") ∨
          (weapon_type = "Blade" ∧ armor_type = "Metal") ∨
          (weapon_type = "Bludgeon" ∧ armor_type = "Cloth") then
    base_attack - elemental_effect
  else
    base_attack

/-- View of an equipped weapon as consumed by `calculateDamageVsBeast`:
level and tier from the item entity, elemental type, resolved special names. -/
structure WeaponView where
  level : ℕ
  tier : ℕ
  wtype : String
  pre : Option String
  suf : Option String

/-- View of an equipped ring: display name (checked with `includes`) and level. -/
structure RingView where
  name : String
  level : ℕ

/-- View of a beast as consumed by `calculateDamageVsBeast`: level, tier,
armor type (from its id band) and resolved special names. -/
structure BeastView where
  level : ℕ
  tier : ℕ
  armorType : String
  pre : Option String
  suf : Option String

/-- Result record of `AdventurerEntity.calculateDamageVsBeast`. -/
structure DamageCalculation where
  baseDamage : ℤ
  criticalDamage : ℤ
  elementalBonus : ℤ
  strengthBonus : ℤ
  specialBonus : ℤ
  total : ℤ
deriving DecidableEq

namespace AdventurerEntity

/-- `AdventurerEntity.calculateDamageVsBeast` from
`src/src/entities/AdventurerEntity.ts` lines 187-271. -/
def calculateDamageVsBeast (weapon : Option WeaponView) (ring : Option RingView)
    (strength : ℕ) (beast : BeastView) : DamageCalculation :=
  match weapon with
  | none =>
      { baseDamage := MIN_DAMAGE
        criticalDamage := MIN_DAMAGE * 2
        elementalBonus := 0
        strengthBonus := 0
        specialBonus := 0
        total := MIN_DAMAGE }
  | some w =>
      let baseAttack : ℕ := w.level * (6 - w.tier)
      let elementalDamage : ℕ := elementalAdjustedDamage baseAttack w.wtype beast.armorType
      let strengthBonus : ℕ :=
        if 0 < strength then elementalDamage * strength * 10 / 100 else 0
      let sb0 : ℕ :=
        (if specialMatch w.pre beast.pre then elementalDamage * 8 else 0) +
        (if specialMatch w.suf beast.suf then elementalDamage * 2 else 0)
      let specialBonus : ℕ :=
        match ring with
        | some r =>
            if jsIncludes r.name "Platinum Ring" ∧ 0 < sb0 then
              sb0 + sb0 * 3 * r.level / 100
            else sb0
        | none => sb0
      let beastArmorValue : ℕ := beast.level * (6 - beast.tier)
      let baseDamage : ℤ :=
        max MIN_DAMAGE
          (((elementalDamage + strengthBonus + specialBonus : ℕ) : ℤ) - (beastArmorValue : ℤ))
      let critBonus : ℕ :=
        match ring with
        | some r =>
            if jsIncludes r.name "Titanium Ring" then
              elementalDamage + elementalDamage * 3 * r.level / 100
            else elementalDamage
        | none => elementalDamage
      let criticalDamage : ℤ :=
        max MIN_DAMAGE
          (((elementalDamage + strengthBonus + specialBonus + critBonus : ℕ) : ℤ) -
            (beastArmorValue : ℤ))
      { baseDamage := baseDamage
        criticalDamage := criticalDamage
        elementalBonus := ((elementalDamage : ℤ) - (baseAttack : ℤ))
        strengthBonus := (strengthBonus : ℤ)
        specialBonus := (specialBonus : ℤ)
        total := baseDamage }

end AdventurerEntity

/-! Claim-side formulation of the player-damage computation, written from the
spec sentence (§4.2 "Player damage vs beast") for comparison with the source
embedding above. -/

/-- Spec formula: elementalDamage = elementalAdjustedDamage(weaponLevel×(6−weaponTier),
weaponType, beastArmorType). -/
def claimElementalDamage (w : WeaponView) (beast : BeastView) : ℕ :=
  elementalAdjustedDamage (w.level * (6 - w.tier)) w.wtype beast.armorType

/-- Spec formula: strengthBonus = ⌊elementalDamage×strength×10/100⌋. -/
def claimStrengthBonus (w : WeaponView) (strength : ℕ) (beast : BeastView) : ℕ :=
  claimElementalDamage w beast * strength * 10 / 100

/-- Spec formula: specialBonus = +8×elementalDamage on prefix match plus
+2×elementalDamage on suffix match (both may apply), increased by
⌊specialBonus×3×ringLevel/100⌋ when a Platinum Ring is held. -/
def claimSpecialBonus (w : WeaponView) (ring : Option RingView) (beast : BeastView) : ℕ :=
  let e := claimElementalDamage w beast
  let sb := (if specialMatch w.pre beast.pre then 8 * e else 0) +
            (if specialMatch w.suf beast.suf then 2 * e else 0)
  match ring with
  | some r => if jsIncludes r.name "Platinum Ring" then sb + sb * 3 * r.level / 100 else sb
  | none => sb

/-- Spec formula: critBonus = elementalDamage, increased by 3%×ringLevel when a
Titanium Ring is held. -/
def claimCritBonus (w : WeaponView) (ring : Option RingView) (beast : BeastView) : ℕ :=
  let e := claimElementalDamage w beast
  match ring with
  | some r => if jsIncludes r.name "Titanium Ring" then e + e * 3 * r.level / 100 else e
  | none => e

/-- Spec formula: baseDamage = max(MIN_DAMAGE,
elementalDamage+strengthBonus+specialBonus−beastLevel×(6−beastTier)). -/
def claimBaseDamage (w : WeaponView) (ring : Option RingView) (strength : ℕ)
    (beast : BeastView) : ℤ :=
  max 4
    (((claimElementalDamage w beast + claimStrengthBonus w strength beast +
        claimSpecialBonus w ring beast : ℕ) : ℤ) - ((beast.level * (6 - beast.tier) : ℕ) : ℤ))

/-- Spec formula: criticalDamage adds critBonus before subtracting the armor value. -/
def claimCriticalDamage (w : WeaponView) (ring : Option RingView) (strength : ℕ)
    (beast : BeastView) : ℤ :=
  max 4
    (((claimElementalDamage w beast + claimStrengthBonus w strength beast +
        claimSpecialBonus w ring beast + claimCritBonus w ring beast : ℕ) : ℤ) -
      ((beast.level * (6 - beast.tier) : ℕ) : ℤ))

/-! Phase detection. -/

/-- The four game phases. -/
inductive GamePhase where
  | death
  | combat
  | level_up
  | exploration
deriving DecidableEq

namespace GameStateService

/-- `GameStateService.determinePhase` (part_003 lines 554-576), over the raw row
fields `details.adventurer.health` / `.beast_health` / `.stat_upgrades_available`
(`none` models an absent/null field; JS truthiness of a number is `≠ 0`). -/
def determinePhase (health beastHealth statUpgrades : Option ℤ) : GamePhase :=
  if (match health with
      | none => true
      | some h => decide (h ≤ 0)) then
    GamePhase.death
  else if (match beastHealth with
      | some b => decide (b ≠ 0) && decide (0 < b)
      | none => false) then
    GamePhase.combat
  else if (match statUpgrades with
      | some s => decide (s ≠ 0) && decide (0 < s)
      | none => false) then
    GamePhase.level_up
  else
    GamePhase.exploration

end GameStateService

/-- Claim-side phase classifier, written from the spec sentence (§4.3): health ≤ 0
or missing ⇒ death; else beastHealth > 0 ⇒ combat; else statUpgrades > 0 ⇒
level_up; else exploration. -/
def claimPhase (health beastHealth statUpgrades : Option ℤ) : GamePhase :=
  if health.getD 0 ≤ 0 then GamePhase.death
  else if 0 < beastHealth.getD 0 then GamePhase.combat
  else if 0 < statUpgrades.getD 0 then GamePhase.level_up
  else GamePhase.exploration

namespace SimpleContextEngine

/-- Input of `SimpleContextEngine.detectPhase`
(`src/src/context/SimpleContextEngine.ts` lines 10-22): the derived game state,
of which only the adventurer health, the presence (truthiness) of
`currentBeast` and the stat-upgrade count are inspected. -/
structure GameStateView where
  health : Option ℤ
  currentBeast : Bool
  statUpgradesAvailable : Option ℤ

/-- `SimpleContextEngine.detectPhase`: death when health is falsy or ≤ 0, else
combat when a `currentBeast` object is present, else level_up on pending stat
upgrades, else exploration. -/
def detectPhase (gs : GameStateView) : GamePhase :=
  if (match gs.health with
      | none => true
      | some h => decide (h = 0) || decide (h ≤ 0)) then
    GamePhase.death
  else if gs.currentBeast then
    GamePhase.combat
  else if 0 < gs.statUpgradesAvailable.getD 0 then
    GamePhase.level_up
  else
    GamePhase.exploration

end SimpleContextEngine

/-! Level derivation and flee/ambush chances. -/

namespace GameStateService

/-- The inline level computation `Math.floor(Math.sqrt(xp))` used by
`GameStateService.mapRowToGameState` (part_003 line 102) for the adventurer and
by `parseItem`/`parseBag` for items. -/
def rowLevel (xp : ℕ) : ℕ :=
  Nat.sqrt xp

/-- `GameStateService.calculateFleeChance` (part_003 lines 578-582):
100 when dexterity ≥ level, otherwise `Math.floor((dex / level) * 100)`. -/
def calculateFleeChance (level dex : ℕ) : ℤ :=
  if dex ≥ level then 100 else ⌊((dex : ℚ) / (level : ℚ)) * 100⌋

/-- `GameStateService.calculateAmbushChance` (part_003 lines 584-588):
0 when wisdom ≥ level, otherwise `Math.floor(((level - wis) / level) * 100)`. -/
def calculateAmbushChance (level wis : ℕ) : ℤ :=
  if wis ≥ level then 0 else ⌊(((level : ℚ) - (wis : ℚ)) / (level : ℚ)) * 100⌋

end GameStateService

namespace CombatSystem

/-- `CombatSystem.calculateFleeChance` (`src/src/systems/CombatSystem.ts` lines
60-69): 100 when dexterity ≥ level, otherwise the raw, unfloored percentage
`(dexterity / adventurerLevel) * 100`. -/
def calculateFleeChance (adventurerLevel dexterity : ℕ) : ℚ :=
  if dexterity ≥ adventurerLevel then 100
  else ((dexterity : ℚ) / (adventurerLevel : ℚ)) * 100

/-- `CombatSystem.calculateAmbushChance` (`src/src/systems/CombatSystem.ts`
lines 74-84): 0 when wisdom ≥ level, otherwise the raw, unfloored percentage
`((adventurerLevel - wisdom) / adventurerLevel) * 100`. -/
def calculateAmbushChance (adventurerLevel wisdom : ℕ) : ℚ :=
  if wisdom ≥ adventurerLevel then 0
  else (((adventurerLevel : ℚ) - (wisdom : ℚ)) / (adventurerLevel : ℚ)) * 100

end CombatSystem

/-! Beast classification (id bands). -/

namespace BeastEntity

/-- `BeastEntity.isT1` (AdventurerEntity.ts lines 481-483). -/
def isT1 (id : ℕ) : Bool :=
  decide ((1 ≤ id ∧ id ≤ 5) ∨ (26 ≤ id ∧ id ≤ 30) ∨ (51 ≤ id ∧ id ≤ 55))

/-- `BeastEntity.isT2`. -/
def isT2 (id : ℕ) : Bool :=
  decide ((6 ≤ id ∧ id ≤ 10) ∨ (31 ≤ id ∧ id ≤ 35) ∨ (56 ≤ id ∧ id ≤ 60))

/-- `BeastEntity.isT3`. -/
def isT3 (id : ℕ) : Bool :=
  decide ((11 ≤ id ∧ id ≤ 15) ∨ (36 ≤ id ∧ id ≤ 40) ∨ (61 ≤ id ∧ id ≤ 65))

/-- `BeastEntity.isT4`. -/
def isT4 (id : ℕ) : Bool :=
  decide ((16 ≤ id ∧ id ≤ 20) ∨ (41 ≤ id ∧ id ≤ 45) ∨ (66 ≤ id ∧ id ≤ 70))

/-- `BeastEntity.getTier` (AdventurerEntity.ts lines 403-414). -/
def getTier (id : ℕ) : ℕ :=
  if isT1 id then 1
  else if isT2 id then 2
  else if isT3 id then 3
  else if isT4 id then 4
  else 5

/-- `BeastEntity.getType` (AdventurerEntity.ts lines 416-426):
Magic / Hunter / Brute bands. -/
def getType (id : ℕ) : String :=
  if 1 ≤ id ∧ id ≤ 25 then "Magic"
  else if 26 ≤ id ∧ id ≤ 50 then "Hunter"
  else if 51 ≤ id ∧ id ≤ 75 then "Brute"
  else "None"

/-- `BeastEntity.getArmorType` (AdventurerEntity.ts lines 428-438):
Cloth / Hide / Metal bands. -/
def getArmorType (id : ℕ) : String :=
  if 1 ≤ id ∧ id ≤ 25 then "Cloth"
  else if 26 ≤ id ∧ id ≤ 50 then "Hide"
  else if 51 ≤ id ∧ id ≤ 75 then "Metal"
  else "None"

end BeastEntity

namespace GameStateService

/-- `GameStateService.getBeastTier` (part_003 lines 677-683). -/
def getBeastTier (id : ℕ) : ℕ :=
  if (1 ≤ id ∧ id ≤ 5) ∨ (26 ≤ id ∧ id ≤ 30) ∨ (51 ≤ id ∧ id ≤ 55) then 1
  else if (6 ≤ id ∧ id ≤ 10) ∨ (31 ≤ id ∧ id ≤ 35) ∨ (56 ≤ id ∧ id ≤ 60) then 2
  else if (11 ≤ id ∧ id ≤ 15) ∨ (36 ≤ id ∧ id ≤ 40) ∨ (61 ≤ id ∧ id ≤ 65) then 3
  else if (16 ≤ id ∧ id ≤ 20) ∨ (41 ≤ id ∧ id ≤ 45) ∨ (66 ≤ id ∧ id ≤ 70) then 4
  else 5

/-- `GameStateService.getBeastType` (part_003 lines 685-690): note the bands are
named Magic / Blade / Bludgeon here (the attack types), not Magic / Hunter /
Brute. -/
def getBeastType (id : ℕ) : String :=
  if 1 ≤ id ∧ id ≤ 25 then "Magic"
  else if 26 ≤ id ∧ id ≤ 50 then "Blade"
  else if 51 ≤ id ∧ id ≤ 75 then "Bludgeon"
  else "None"

/-- `GameStateService.getBeastArmorType` (part_003 lines 692-697). -/
def getBeastArmorType (id : ℕ) : String :=
  if 1 ≤ id ∧ id ≤ 25 then "Cloth"
  else if 26 ≤ id ∧ id ≤ 50 then "Hide"
  else if 51 ≤ id ∧ id ≤ 75 then "Metal"
  else "None"

/-! Item classification (part_003 lines 603-663). -/

/-- `GameStateService.getItemTier`. -/
def getItemTier (id : ℕ) : ℕ :=
  if id = 0 then 5
  else if 1 ≤ id ∧ id ≤ 3 then 1
  else if id = 4 then 2
  else if id = 5 then 3
  else if 6 ≤ id ∧ id ≤ 8 then 1
  else if id ∈ [9, 13, 17, 22, 27, 32, 37, 42, 47, 52, 57, 62, 67, 72, 77, 82, 87, 92, 97] then 1
  else if id ∈ [10, 14, 18, 23, 28, 33, 38, 43, 48, 53, 58, 63, 68, 73, 78, 83, 88, 93, 98] then 2
  else if id ∈ [11, 15, 19, 24, 29, 34, 39, 44, 49, 54, 59, 64, 69, 74, 79, 84, 89, 94, 99] then 3
  else if id ∈ [20, 25, 30, 35, 40, 45, 50, 55, 60, 65, 70, 75, 80, 85, 90, 95, 100] then 4
  else 5

/-- `GameStateService.getWeaponType`. -/
def getWeaponType (id : ℕ) : String :=
  if 9 ≤ id ∧ id ≤ 16 then "Magic"
  else if 42 ≤ id ∧ id ≤ 46 then "Blade"
  else if 72 ≤ id ∧ id ≤ 76 then "Bludgeon"
  else "None"

/-- `GameStateService.getItemType`. -/
def getItemType (id : ℕ) : String :=
  if id ≤ 3 then "Necklace"
  else if 4 ≤ id ∧ id ≤ 8 then "Ring"
  else if (9 ≤ id ∧ id ≤ 16) ∨ (42 ≤ id ∧ id ≤ 46) ∨ (72 ≤ id ∧ id ≤ 76) then getWeaponType id
  else if 17 ≤ id ∧ id ≤ 41 then "Cloth"
  else if 47 ≤ id ∧ id ≤ 71 then "Hide"
  else if 77 ≤ id ∧ id ≤ 101 then "Metal"
  else "None"

/-- `GameStateService.getItemSlot`. -/
def getItemSlot (id : ℕ) : String :=
  if id ≤ 3 then "Neck"
  else if 4 ≤ id ∧ id ≤ 8 then "Ring"
  else if (9 ≤ id ∧ id ≤ 16) ∨ (42 ≤ id ∧ id ≤ 46) ∨ (72 ≤ id ∧ id ≤ 76) then "Weapon"
  else if (17 ≤ id ∧ id ≤ 21) ∨ (47 ≤ id ∧ id ≤ 51) ∨ (77 ≤ id ∧ id ≤ 81) then "Chest"
  else if (22 ≤ id ∧ id ≤ 26) ∨ (52 ≤ id ∧ id ≤ 56) ∨ (82 ≤ id ∧ id ≤ 86) then "Head"
  else if (27 ≤ id ∧ id ≤ 31) ∨ (57 ≤ id ∧ id ≤ 61) ∨ (87 ≤ id ∧ id ≤ 91) then "Waist"
  else if (32 ≤ id ∧ id ≤ 36) ∨ (62 ≤ id ∧ id ≤ 66) ∨ (92 ≤ id ∧ id ≤ 96) then "Foot"
  else if (37 ≤ id ∧ id ≤ 41) ∨ (67 ≤ id ∧ id ≤ 71) ∨ (97 ≤ id ∧ id ≤ 101) then "Hand"
  else "None"

/-- A parsed equipment/bag item as produced by `GameStateService.parseItem`
(part_003 lines 146-172). The display name comes from the `ItemId` constant
table (a module not under src/), so the name resolver is a parameter; the
special-name indices are the `(seed + id) % 69 + 1` / `% 18 + 1` computations
of `getItemPrefix`/`getItemSuffix` (the tables they index are constants). -/
structure ParsedItem where
  id : ℕ
  xp : ℕ
  level : ℕ
  name : String
  tier : ℕ
  itype : String
  slot : String
  preIdx : Option ℕ
  sufIdx : Option ℕ
deriving DecidableEq

/-- `GameStateService.parseItem`: `null` when the slot id is 0/absent, else the
item with `level = Math.floor(Math.sqrt(xp))` and specials attached at levels
19/15 when the specials seed is non-zero. -/
def parseItem (nameOf : ℕ → String) (slot : String) (id xp seed : ℕ) : Option ParsedItem :=
  if id = 0 then none
  else
    let level := Nat.sqrt xp
    some
      { id := id
        xp := xp
        level := level
        name := nameOf id
        tier := getItemTier id
        itype := getItemType id
        slot := slot
        preIdx := if 19 ≤ level ∧ seed ≠ 0 then some ((seed + id) % 69 + 1) else none
        sufIdx := if 15 ≤ level ∧ seed ≠ 0 then some ((seed + id) % 18 + 1) else none }

end GameStateService

/-! Market payload parsing (C9). -/

/-- A JSON value as far as the market parser distinguishes them: an array of
item ids, or anything else. -/
inductive Json where
  | arr (items : List ℕ) : Json
  | nonArray : Json
deriving DecidableEq

/-- The shape of the `details.market_items.items` row field: absent/null,
a string that parses as JSON to `j`, a string on which `JSON.parse` throws,
or an already-parsed non-string value `j`. -/
inductive MarketPayload where
  | missing : MarketPayload
  | strOk (j : Json) : MarketPayload
  | strBad : MarketPayload
  | direct (j : Json) : MarketPayload
deriving DecidableEq

/-- A market entry as produced by `GameStateService.parseMarket`. -/
structure MarketItem where
  id : ℕ
  name : String
  tier : ℕ
  itype : String
  slot : String
  price : ℕ
deriving DecidableEq

namespace GameStateService

/-- `GameStateService.calculatePrice` (part_003 lines 591-596):
`max(1, basePrice − charisma)`. The base price comes from
`ItemUtils.getItemBasePrice/getItemTier` (`utils/loot`, a module not under
src/), so the id → basePrice map is a parameter. -/
def calculatePrice (priceBase : ℕ → ℕ) (itemId charisma : ℕ) : ℕ :=
  max 1 (priceBase itemId - charisma)

/-- `GameStateService.parseMarket` (part_003 lines 249-270): missing payload,
a `JSON.parse` failure (caught) or a non-array value all give the empty
market; an id array maps to classified, priced entries. The total function
models that the `try`/`catch` makes the source never throw here. -/
def parseMarket (nameOf : ℕ → String) (priceBase : ℕ → ℕ) (payload : MarketPayload)
    (charisma : ℕ) : List MarketItem :=
  match payload with
  | MarketPayload.missing => []
  | MarketPayload.strBad => []
  | MarketPayload.strOk Json.nonArray => []
  | MarketPayload.direct Json.nonArray => []
  | MarketPayload.strOk (Json.arr ids) =>
      ids.map (fun id =>
        { id := id
          name := nameOf id
          tier := getItemTier id
          itype := getItemType id
          slot := getItemSlot id
          price := calculatePrice priceBase id charisma })
  | MarketPayload.direct (Json.arr ids) =>
      ids.map (fun id =>
        { id := id
          name := nameOf id
          tier := getItemTier id
          itype := getItemType id
          slot := getItemSlot id
          price := calculatePrice priceBase id charisma })

end GameStateService

namespace IndexerClient

/-- `IndexerClient.getMarketItems` (`src/src/indexer/IndexerClient.ts` lines
321-343), reduced to its payload handling: absent field, unparsable string or
non-array value give `[]`; an array of ids is returned as-is. -/
def getMarketItems (payload : MarketPayload) : List ℕ :=
  match payload with
  | MarketPayload.missing => []
  | MarketPayload.strBad => []
  | MarketPayload.strOk (Json.arr ids) => ids
  | MarketPayload.strOk Json.nonArray => []
  | MarketPayload.direct (Json.arr ids) => ids
  | MarketPayload.direct Json.nonArray => []

end IndexerClient

/-! Beast damage against a single armor item. `ItemView` is the formatted
armor/neck item the combat code reads (type, level, tier, specials, name). -/

/-- Formatted item view: elemental type, level, tier, resolved special names
and display name. -/
structure ItemView where
  name : String
  itype : String
  level : ℕ
  tier : ℕ
  pre : Option String
  suf : Option String

namespace CombatSystem

/-- `CombatSystem.getBeastAttackType` (CombatSystem.ts lines 194-200). -/
def getBeastAttackType (id : ℕ) : String :=
  if 1 ≤ id ∧ id ≤ 25 then "Magic"
  else if 26 ≤ id ∧ id ≤ 50 then "Blade"
  else if 51 ≤ id ∧ id ≤ 75 then "Bludgeon"
  else "None"

/-- `CombatSystem.neckReductionApplies` (CombatSystem.ts lines 186-192). -/
def neckReductionApplies (armorType neckName : String) : Bool :=
  if armorType = "" ∨ neckName = "" then false
  else if armorType = "Cloth" ∧ jsIncludes neckName "Amulet" then true
  else if armorType = "Hide" ∧ jsIncludes neckName "Pendant" then true
  else if armorType = "Metal" ∧ jsIncludes neckName "Necklace" then true
  else false

/-- `CombatSystem.calculateBeastDamageAgainstArmor` (CombatSystem.ts lines
149-184): beast base attack, elemental adjustment against the armor type,
×2/×8 suffix/prefix match multipliers, armor value subtraction with a first
clamp to `BEAST_MIN_DAMAGE`, neck reduction, final clamp to
`BEAST_MIN_DAMAGE`. -/
def calculateBeastDamageAgainstArmor (beastId beastLevel beastTier : ℕ)
    (beastPre beastSuf : Option String) (armor : ItemView)
    (neck : Option ItemView) : ℤ :=
  let damage0 : ℕ := beastLevel * (6 - beastTier)
  let damage1 : ℕ := elementalAdjustedDamage damage0 (getBeastAttackType beastId) armor.itype
  let damage2 : ℕ :=
    if jsStr beastPre || jsStr beastSuf then
      let d := if jsStr armor.suf && jsStr beastSuf && armor.suf == beastSuf
               then damage1 * 2 else damage1
      if jsStr armor.pre && jsStr beastPre && armor.pre == beastPre then d * 8 else d
    else damage1
  let armorValue : ℕ := armor.level * (6 - armor.tier)
  let damage3 : ℤ := max BEAST_MIN_DAMAGE ((damage2 : ℤ) - (armorValue : ℤ))
  let damage4 : ℤ :=
    match neck with
    | some n =>
        if neckReductionApplies armor.itype n.name then
          damage3 - ((armor.level * (6 - armor.tier) * n.level * 3 / 100 : ℕ) : ℤ)
        else damage3
    | none => damage3
  max BEAST_MIN_DAMAGE damage4

end CombatSystem

/-- JS `Math.round`: round half toward positive infinity. -/
def jsRound (q : ℚ) : ℤ :=
  ⌊q + 1 / 2⌋

namespace GameUtils

/-- Modelled from the spec: `calculateBeastDamage` is imported by
`GameStateService` from `../utils/game`, a module not under src/. Spec §4.2
("Beast damage vs adventurer, per armor slot"): elemental-adjusted beast
attack against the armor type, the same 8×/2× prefix/suffix multiplier logic
(beast specials vs armor specials), minus armorValue = armorLevel×(6−armorTier),
minus the neck reduction ⌊armorValue×neckLevel×3/100⌋ when the neck item
matches the armor family (Amulet↔Cloth, Pendant↔Hide, Necklace↔Metal),
clamped to ≥ BEAST_MIN_DAMAGE. -/
def calculateBeastDamage (beastAttackType : String) (beastLevel beastTier : ℕ)
    (beastPre beastSuf : Option String) (armor : ItemView)
    (neck : Option ItemView) : ℤ :=
  let base : ℕ := beastLevel * (6 - beastTier)
  let e : ℕ := elementalAdjustedDamage base beastAttackType armor.itype
  let e2 : ℕ := if specialMatch armor.pre beastPre then e * 8 else e
  let e3 : ℕ := if specialMatch armor.suf beastSuf then e2 * 2 else e2
  let armorValue : ℕ := armor.level * (6 - armor.tier)
  let neckRed : ℕ :=
    match neck with
    | some n =>
        if (armor.itype = "Cloth" ∧ n.name = "Amulet") ∨
           (armor.itype = "Hide" ∧ n.name = "Pendant") ∨
           (armor.itype = "Metal" ∧ n.name = "Necklace") then
          armorValue * n.level * 3 / 100
        else 0
    | none => 0
  max BEAST_MIN_DAMAGE ((e3 : ℤ) - (armorValue : ℤ) - (neckRed : ℤ))

/-- Result of the player-side combat stats computation consumed by
`calculateCombatPreview`. -/
structure CombatStatsResult where
  baseDamage : ℤ
  criticalDamage : ℤ
  critChance : ℤ

/-- Modelled from the spec: `calculateCombatStats` is imported by
`GameStateService` from `../utils/game`, a module not under src/. Spec §4.2
gives the player-damage formula (the claim-side `claimBaseDamage` /
`claimCriticalDamage` above, with the no-weapon minimum fallback), and the
crit chance is the adventurer's luck value (as in
`AdventurerEntity.getCombatStats`). -/
def calculateCombatStats (weapon : Option WeaponView) (ring : Option RingView)
    (strength luck : ℕ) (beast : BeastView) : CombatStatsResult :=
  match weapon with
  | none => { baseDamage := 4, criticalDamage := 8, critChance := (luck : ℤ) }
  | some w =>
      { baseDamage := claimBaseDamage w ring strength beast
        criticalDamage := claimCriticalDamage w ring strength beast
        critChance := (luck : ℤ) }

end GameUtils

namespace GameStateService

/-- The per-slot beast damage of `GameStateService.calculateCombatPreview`
(part_003 lines 407-425): an equipped slot (item with non-zero id, here
`some a`) is `max(BEAST_MIN_DAMAGE, round(calculateBeastDamage(...).baseDamage))`;
an empty slot is `max(BEAST_MIN_DAMAGE, floor(beastBaseAttack * 1.5))` with
`beastBaseAttack = beastLevel * (6 - beastTier)`. -/
def previewSlotDamage (beastId beastLevel beastTier : ℕ) (bPre bSuf : Option String)
    (neck : Option ItemView) (armor : Option ItemView) : ℤ :=
  match armor with
  | some a =>
      max BEAST_MIN_DAMAGE
        (GameUtils.calculateBeastDamage (getBeastType beastId) beastLevel beastTier
          bPre bSuf a neck)
  | none =>
      max BEAST_MIN_DAMAGE ((3 * (beastLevel * (6 - beastTier)) / 2 : ℕ) : ℤ)

/-- `highestBeastDamage` of `calculateCombatPreview`: starts at
`BEAST_MIN_DAMAGE` and takes the running maximum over the five armor slots
(head, chest, waist, hand, foot); reported as `beastDamage.max`. -/
def previewBeastDamageMax (beastId beastLevel beastTier : ℕ) (bPre bSuf : Option String)
    (neck : Option ItemView) (slots : List (Option ItemView)) : ℤ :=
  slots.foldl
    (fun acc s => max acc (previewSlotDamage beastId beastLevel beastTier bPre bSuf neck s))
    BEAST_MIN_DAMAGE

/-- `totalBeastDamage` of `calculateCombatPreview`: the sum of the per-slot
damage values. -/
def previewBeastDamageTotal (beastId beastLevel beastTier : ℕ) (bPre bSuf : Option String)
    (neck : Option ItemView) (slots : List (Option ItemView)) : ℤ :=
  (slots.map (previewSlotDamage beastId beastLevel beastTier bPre bSuf neck)).sum

/-- `averageBeastDamage` of `calculateCombatPreview`:
`max(BEAST_MIN_DAMAGE, round(totalBeastDamage / 5))`. -/
def previewAverageBeastDamage (beastId beastLevel beastTier : ℕ) (bPre bSuf : Option String)
    (neck : Option ItemView) (slots : List (Option ItemView)) : ℤ :=
  max BEAST_MIN_DAMAGE
    (jsRound ((previewBeastDamageTotal beastId beastLevel beastTier bPre bSuf neck slots : ℚ) / 5))

/-- `baseDamage` of `calculateCombatPreview` (part_003 line 398):
`max(1, round(combatStats.baseDamage))`. -/
def previewPlayerBase (cs : GameUtils.CombatStatsResult) : ℤ :=
  max 1 cs.baseDamage

/-- `criticalDamage` of `calculateCombatPreview` (part_003 line 399):
`max(baseDamage, round(combatStats.criticalDamage))`. -/
def previewPlayerCritical (cs : GameUtils.CombatStatsResult) : ℤ :=
  max (previewPlayerBase cs) cs.criticalDamage

/-- `critChance` of `calculateCombatPreview` (part_003 line 400):
`min(100, max(0, round(combatStats.critChance)))`. -/
def previewCritChance (cs : GameUtils.CombatStatsResult) : ℤ :=
  min 100 (max 0 cs.critChance)

/-- `averagePlayerDamage` of `calculateCombatPreview` (part_003 lines 432-435):
`max(1, base + (critChance / 100) * (critical - base))`. -/
def previewAveragePlayerDamage (cs : GameUtils.CombatStatsResult) : ℚ :=
  max 1
    ((previewPlayerBase cs : ℚ) +
      ((previewCritChance cs : ℚ) / 100) *
        ((previewPlayerCritical cs : ℚ) - (previewPlayerBase cs : ℚ)))

/-- Structured combat-outcome estimate. The source
(`GameStateService.estimateCombatOutcome`) renders this to the strings
"Win in R round(s), take D damage" / "Win in R round(s), no damage" /
"Lose in R round(s)". -/
inductive CombatOutcome where
  | win (rounds : ℤ) (damageTaken : ℚ) : CombatOutcome
  | lose (rounds : ℤ) : CombatOutcome
deriving DecidableEq

/-- `GameStateService.estimateCombatOutcome` (part_003 lines 523-548):
`adjustedPlayerDamage = max(1, averagePlayerDamage)`,
`roundsToKillBeast = max(1, ceil(beastHealth / adjustedPlayerDamage))`,
`roundsToKillAdventurer = ceil(adventurerHealth / beastDamage)` when
`beastDamage > 0` and infinite (`none`) otherwise; the adventurer wins iff
`roundsToKillBeast ≤ roundsToKillAdventurer`, taking
`max(0, roundsToKillBeast − 1) × beastDamage` damage. -/
def estimateCombatOutcome (adventurerHealth beastHealth : ℤ)
    (averagePlayerDamage beastDamage : ℚ) : CombatOutcome :=
  let adjustedPlayerDamage : ℚ := max 1 averagePlayerDamage
  let roundsToKillBeast : ℤ := max 1 ⌈(beastHealth : ℚ) / adjustedPlayerDamage⌉
  let roundsToKillAdventurer : Option ℤ :=
    if 0 < beastDamage then some ⌈(adventurerHealth : ℚ) / beastDamage⌉ else none
  let damageTaken : ℚ := ((max 0 (roundsToKillBeast - 1) : ℤ) : ℚ) * beastDamage
  match roundsToKillAdventurer with
  | none => CombatOutcome.win roundsToKillBeast damageTaken
  | some r =>
      if roundsToKillBeast ≤ r then CombatOutcome.win roundsToKillBeast damageTaken
      else CombatOutcome.lose r

end GameStateService

namespace GameContext

/-- `GameContext.getBeastAttackType` (src/README.md GameContext source):
identical bands to `CombatSystem.getBeastAttackType`. -/
def getBeastAttackType (id : ℕ) : String :=
  if 1 ≤ id ∧ id ≤ 25 then "Magic"
  else if 26 ≤ id ∧ id ≤ 50 then "Blade"
  else if 51 ≤ id ∧ id ≤ 75 then "Bludgeon"
  else "None"

/-- `GameContext.calculateDamageAgainstArmor` (src/README.md GameContext
source): elemental adjustment, ×2/×8 suffix/prefix multipliers, armor value
subtraction with a first clamp, inline neck-family reduction, final clamp. -/
def calculateDamageAgainstArmor (attackType : String) (beastLevel beastTier : ℕ)
    (beastPre beastSuf : Option String) (armor : ItemView)
    (neck : Option ItemView) : ℤ :=
  let damage0 : ℕ := beastLevel * (6 - beastTier)
  let damage1 : ℕ := elementalAdjustedDamage damage0 attackType armor.itype
  let damage2 : ℕ :=
    if jsStr beastPre || jsStr beastSuf then
      let d := if jsStr armor.suf && jsStr beastSuf && armor.suf == beastSuf
               then damage1 * 2 else damage1
      if jsStr armor.pre && jsStr beastPre && armor.pre == beastPre then d * 8 else d
    else damage1
  let armorValue : ℕ := armor.level * (6 - armor.tier)
  let damage3 : ℤ := max BEAST_MIN_DAMAGE ((damage2 : ℤ) - (armorValue : ℤ))
  let damage4 : ℤ :=
    match neck with
    | some n =>
        if (armor.itype = "Cloth" ∧ jsIncludes n.name "Amulet") ∨
           (armor.itype = "Hide" ∧ jsIncludes n.name "Pendant") ∨
           (armor.itype = "Metal" ∧ jsIncludes n.name "Necklace") then
          damage3 - ((armor.level * (6 - armor.tier) * n.level * 3 / 100 : ℕ) : ℤ)
        else damage3
    | none => damage3
  max BEAST_MIN_DAMAGE damage4

/-- Result of `GameContext.calculateBeastDamagePerSlot`. -/
structure PerSlotDamage where
  head : ℤ
  chest : ℤ
  waist : ℤ
  hand : ℤ
  foot : ℤ
  maxDamage : ℤ
  protectionPercent : ℤ
deriving DecidableEq

/-- The per-slot value of `GameContext.calculateBeastDamagePerSlot`
(src/README.md GameContext source): an equipped slot goes through
`calculateDamageAgainstArmor`; an unarmored slot is assigned
`Math.floor(maxDamage)` with `maxDamage = beastLevel*(6-beastTier)*1.5` and
NO clamp to `BEAST_MIN_DAMAGE`. -/
def perSlotValue (beastId beastLevel beastTier : ℕ) (beastPre beastSuf : Option String)
    (neck : Option ItemView) (armor : Option ItemView) : ℤ :=
  match armor with
  | some a =>
      calculateDamageAgainstArmor (getBeastAttackType beastId) beastLevel beastTier
        beastPre beastSuf a neck
  | none => ⌊((beastLevel * (6 - beastTier) : ℕ) : ℚ) * (3 / 2)⌋

/-- The per-slot defense contribution of `calculateBeastDamagePerSlot`:
`max(0, maxDamage - damage)` for an equipped slot, nothing for an unarmored
slot (the loop `continue`s before accumulating defense). -/
def perSlotDefense (beastId beastLevel beastTier : ℕ) (beastPre beastSuf : Option String)
    (neck : Option ItemView) (armor : Option ItemView) : ℚ :=
  match armor with
  | some a =>
      max 0
        (((beastLevel * (6 - beastTier) : ℕ) : ℚ) * (3 / 2) -
          ((calculateDamageAgainstArmor (getBeastAttackType beastId) beastLevel beastTier
              beastPre beastSuf a neck : ℤ) : ℚ))
  | none => 0

/-- `GameContext.calculateBeastDamagePerSlot` (src/README.md GameContext
source): per-slot incoming damage over the five armor slots, reported maximum
`Math.floor(maxDamage)` and protection percent
`100` when `maxDamage ≤ 2`, else
`⌊totalDefense / ((maxDamage − BEAST_MIN_DAMAGE) × 5) × 100⌋` clamped to
[0, 100]. -/
def calculateBeastDamagePerSlot (beastId beastLevel beastTier : ℕ)
    (beastPre beastSuf : Option String)
    (head chest waist hand foot : Option ItemView)
    (neck : Option ItemView) : PerSlotDamage :=
  let maxDamage : ℚ := ((beastLevel * (6 - beastTier) : ℕ) : ℚ) * (3 / 2)
  let value := perSlotValue beastId beastLevel beastTier beastPre beastSuf neck
  let defense := perSlotDefense beastId beastLevel beastTier beastPre beastSuf neck
  let totalDefense : ℚ :=
    defense head + defense chest + defense waist + defense hand + defense foot
  let protection : ℤ :=
    if maxDamage ≤ 2 then 100
    else ⌊totalDefense / ((maxDamage - 2) * 5) * 100⌋
  { head := value head
    chest := value chest
    waist := value waist
    hand := value hand
    foot := value foot
    maxDamage := ⌊maxDamage⌋
    protectionPercent := max 0 (min 100 protection) }

/-! The unified activity feed (src/README.md GameContext source,
`buildUnifiedActivityFeed` / `getGameContext`). -/

/-- An entry of the unified activity feed, reduced to what the merge order
inspects plus an opaque payload standing for the remaining fields (summary
data, chain metadata, message). `atTime` is the numeric timestamp
`new Date(at).getTime()` (`none` for a missing/falsy `at`); `eventIndex` is
`meta.eventIndex` (`none` when it is not a number). -/
structure FeedEntry where
  kind : String
  atTime : Option ℤ
  eventIndex : Option ℕ
  payload : ℤ
deriving DecidableEq

/-- The fixed `kindWeight` tie-break table of `buildUnifiedActivityFeed`;
kinds outside the table weigh 999. -/
def kindWeight (k : String) : ℕ :=
  if k = "BeastEncounter" then 10
  else if k = "Ambush" then 20
  else if k = "Attack" then 30
  else if k = "BeastAttack" then 40
  else if k = "Obstacle" then 45
  else if k = "Discovery" then 50
  else if k = "Purchase" then 60
  else if k = "Equip" then 70
  else if k = "Drop" then 80
  else if k = "LevelUp" then 90
  else if k = "BeastDefeated" then 100
  else if k = "MarketUpdated" then 110
  else if k = "AdventurerPacked" then 120
  else if k = "BagPacked" then 130
  else if k = "Unknown" then 200
  else 999

/-- The timestamp the comparator uses: `a.at ? getTime(a.at) : 0`. -/
def feedTime (e : FeedEntry) : ℤ :=
  e.atTime.getD 0

/-- Ascending comparison on event indices with a missing index sorting last
(the comparator substitutes `Number.POSITIVE_INFINITY`). -/
def idxBefore (a b : Option ℕ) : Bool :=
  match a, b with
  | some n, some m => decide (n < m)
  | some _, none => true
  | none, some _ => false
  | none, none => false

/-- The sort comparator of `buildUnifiedActivityFeed` as a `≤`-style relation:
`feedLE a b` iff the comparator does not order `b` strictly before `a`
(timestamp descending, then eventIndex ascending with unknown last, then
kind weight). -/
def feedLE (a b : FeedEntry) : Bool :=
  if feedTime a ≠ feedTime b then decide (feedTime b < feedTime a)
  else if a.eventIndex ≠ b.eventIndex then idxBefore a.eventIndex b.eventIndex
  else decide (kindWeight a.kind ≤ kindWeight b.kind)

/-- The composite sort key the comparator is based on. Two entries compare
equal under the comparator exactly when their keys coincide. -/
def feedKey (e : FeedEntry) : ℤ × Option ℕ × ℕ :=
  (feedTime e, e.eventIndex, kindWeight e.kind)

/-- `GameContext.buildUnifiedActivityFeed`: concatenate the event streams
(derived action events, `AdventurerPacked` snapshots, `BagPacked` snapshots)
and sort with the comparator; JS `Array.prototype.sort` is stable, which
`List.mergeSort` models. (The human-readable message annotation does not
affect ordering and is folded into `payload`.) -/
def buildUnifiedActivityFeed (streams : List (List FeedEntry)) : List FeedEntry :=
  streams.flatten.mergeSort feedLE

/-- `recentEvents` of `GameContext.getGameContext` (src/README.md line 204):
the first 10 entries of the unified feed. -/
def recentEvents (streams : List (List FeedEntry)) : List FeedEntry :=
  (buildUnifiedActivityFeed streams).take 10

/-- The comparator key component for event indices, bundled for analysis:
a missing index becomes `⊤` (it sorts last in ascending order). -/
def rankIdx (o : Option ℕ) : WithTop ℕ :=
  match o with
  | some n => (n : WithTop ℕ)
  | none => ⊤

/-- The comparator key bundled into a lexicographic order
`ℤ ×ₗ (WithTop ℕ ×ₗ ℕ)`: time negated (descending), then index with missing
last, then kind weight. `feedLE` coincides with `≤` on ranks. -/
def rank (e : FeedEntry) : ℤ ×ₗ (WithTop ℕ ×ₗ ℕ) :=
  toLex (-(feedTime e), toLex (rankIdx e.eventIndex, kindWeight e.kind))

end GameContext

end LS

/-! Theorems. -/

namespace LS

lemma strength_if_eq (e s : ℕ) :
    (if 0 < s then e * s * 10 / 100 else 0) = e * s * 10 / 100 := by
  rcases Nat.eq_zero_or_pos s with h | h <;> simp [h]

lemma platinum_if_eq (P : Prop) [Decidable P] (sb r : ℕ) :
    (if P ∧ 0 < sb then sb + sb * 3 * r / 100 else sb)
      = (if P then sb + sb * 3 * r / 100 else sb) := by
  by_cases hP : P <;> rcases Nat.eq_zero_or_pos sb with h | h <;> simp [hP, h]

/-- C1: with an equipped weapon, `calculateDamageVsBeast` returns exactly the
spec formulas for base and critical damage (elemental damage, floored strength
bonus, additive 8×/2× special bonus with Platinum Ring increase, beast armor
value, Titanium-boosted crit bonus, floor at MIN_DAMAGE = 4); with no weapon
it returns the fixed minimum fallback damage. -/
theorem C1_player_damage_formula (w : WeaponView) (ring : Option RingView) (strength : ℕ)
    (beast : BeastView) :
    (AdventurerEntity.calculateDamageVsBeast (some w) ring strength beast).baseDamage
        = claimBaseDamage w ring strength beast
    ∧ (AdventurerEntity.calculateDamageVsBeast (some w) ring strength beast).criticalDamage
        = claimCriticalDamage w ring strength beast
    ∧ AdventurerEntity.calculateDamageVsBeast none ring strength beast
        = ⟨4, 8, 0, 0, 0, 4⟩ := by
  have hsb : ∀ e : ℕ,
      (if specialMatch w.pre beast.pre then e * 8 else 0) +
        (if specialMatch w.suf beast.suf then e * 2 else 0)
      = (if specialMatch w.pre beast.pre then 8 * e else 0) +
        (if specialMatch w.suf beast.suf then 2 * e else 0) := by
    intro e
    rw [Nat.mul_comm e 8, Nat.mul_comm e 2]
  rcases ring with _ | r <;>
  refine ⟨?_, ?_, rfl⟩ <;>
  simp only [AdventurerEntity.calculateDamageVsBeast, claimBaseDamage, claimCriticalDamage,
    claimSpecialBonus, claimStrengthBonus, claimCritBonus, claimElementalDamage, MIN_DAMAGE,
    strength_if_eq, hsb] <;>
  try rw [platinum_if_eq]

/-- C2: `determinePhase` agrees with the fixed-priority classifier (death on
missing/≤0 health, else combat on beastHealth > 0, else level_up on pending
stat upgrades, else exploration); and `detectPhase` classifies any state with
missing/≤0 health as death, never combat. -/
theorem C2_phase_priority :
    (∀ health beastHealth statUpgrades : Option ℤ,
        GameStateService.determinePhase health beastHealth statUpgrades
          = claimPhase health beastHealth statUpgrades)
    ∧ (∀ gs : SimpleContextEngine.GameStateView, gs.health.getD 0 ≤ 0 →
        SimpleContextEngine.detectPhase gs = GamePhase.death) := by
  constructor
  · intro h b s
    rcases h with _ | h <;> rcases b with _ | b <;> rcases s with _ | s <;>
      simp only [GameStateService.determinePhase, claimPhase, Option.getD] <;>
      split_ifs <;> simp_all
  · rintro ⟨h, cb, s⟩ hh
    rcases h with _ | h <;>
      simp_all [SimpleContextEngine.detectPhase, Option.getD]

/-- C2 witness: a row with health 0 and beastHealth 5 is classified as death by
both phase detectors. -/
theorem C2_phase_priority_witness :
    GameStateService.determinePhase (some 0) (some 5) none = GamePhase.death
    ∧ SimpleContextEngine.detectPhase ⟨some 0, true, none⟩ = GamePhase.death := by
  refine ⟨?_, C2_phase_priority.2 ⟨some 0, true, none⟩ (by decide)⟩
  rw [C2_phase_priority.1]
  decide

end LS

namespace LS

/-- C3 counterexample: at xp = 0 the shared `calculateLevel` helper returns 1,
not ⌊√0⌋ = 0, so "level = ⌊√xp⌋ including the xp = 0 boundary" fails on that
code path. -/
theorem C3_xp_zero_counterexample :
    calculateLevel 0 ≠ Nat.sqrt 0 := by
  simp [calculateLevel]

/-- C3 (amended): level = ⌊√xp⌋ holds for all xp ≥ 1 on every path, and for
xp = 0 on the GameStateService paths (adventurer row and parsed items), while
`calculateLevel` special-cases xp = 0 to 1. -/
theorem C3_level_formula_amended (xp : ℕ) :
    (1 ≤ xp → calculateLevel xp = Nat.sqrt xp)
    ∧ GameStateService.rowLevel xp = Nat.sqrt xp
    ∧ (∀ (nameOf : ℕ → String) (slot : String) (id seed : ℕ), id ≠ 0 →
        (GameStateService.parseItem nameOf slot id xp seed).map
            GameStateService.ParsedItem.level = some (Nat.sqrt xp))
    ∧ calculateLevel 0 = 1 := by
  refine ⟨?_, rfl, ?_, rfl⟩
  · intro h
    rw [calculateLevel, if_neg (by omega)]
  · intro nameOf slot id seed hid
    simp [GameStateService.parseItem, hid]

/-- C3 witness: at xp = 19 every path derives level ⌊√19⌋ = 4. -/
theorem C3_level_formula_amended_witness :
    calculateLevel 19 = Nat.sqrt 19 ∧ GameStateService.rowLevel 19 = Nat.sqrt 19 := by
  exact ⟨(C3_level_formula_amended 19).1 (by decide), (C3_level_formula_amended 19).2.1⟩

/-- C4 counterexample: the claimed floored value at level 3, dexterity 1 is
⌊(1/3)·100⌋ = 33, but `CombatSystem.calculateFleeChance` returns the
unfloored 100/3 ≠ 33. -/
theorem C4_unfloored_counterexample :
    ⌊((1 : ℚ) / 3) * 100⌋ = 33 ∧ CombatSystem.calculateFleeChance 3 1 ≠ 33 := by
  constructor
  · rw [Int.floor_eq_iff] <;> norm_num
  · rw [CombatSystem.calculateFleeChance, if_neg (by norm_num)]
    norm_num

/-- C4 (amended): `GameStateService` computes the floored chances exactly as
claimed (flee: 100 when dex ≥ level else ⌊dex/level·100⌋; ambush: 0 when
wis ≥ level else ⌊(level−wis)/level·100⌋), and it equals the floor of the
unfloored percentage that `CombatSystem` returns instead. -/
theorem C4_flee_ambush_amended (level dex wis : ℕ) (hl : 1 ≤ level) :
    GameStateService.calculateFleeChance level dex
        = (if dex ≥ level then 100 else ⌊((dex : ℚ) / (level : ℚ)) * 100⌋)
    ∧ GameStateService.calculateAmbushChance level wis
        = (if wis ≥ level then 0 else ⌊(((level : ℚ) - (wis : ℚ)) / (level : ℚ)) * 100⌋)
    ∧ GameStateService.calculateFleeChance level dex
        = ⌊CombatSystem.calculateFleeChance level dex⌋
    ∧ GameStateService.calculateAmbushChance level wis
        = ⌊CombatSystem.calculateAmbushChance level wis⌋ := by
  refine ⟨rfl, rfl, ?_, ?_⟩
  · rw [GameStateService.calculateFleeChance, CombatSystem.calculateFleeChance]
    split_ifs <;> norm_num
  · rw [GameStateService.calculateAmbushChance, CombatSystem.calculateAmbushChance]
    split_ifs <;> norm_num

/-- C4 witness: at level 3, dexterity 1, wisdom 1 the floored chances are
⌊100/3⌋ and ⌊200/3⌋. -/
theorem C4_flee_ambush_amended_witness :
    GameStateService.calculateFleeChance 3 1
        = (if (1 : ℕ) ≥ 3 then 100 else ⌊((1 : ℚ) / (3 : ℚ)) * 100⌋)
    ∧ GameStateService.calculateFleeChance 3 1 = ⌊CombatSystem.calculateFleeChance 3 1⌋ := by
  exact ⟨(C4_flee_ambush_amended 3 1 1 (by decide)).1,
    (C4_flee_ambush_amended 3 1 1 (by decide)).2.2.1⟩

end LS

namespace LS

/-- C8 counterexample: `GameStateService.getBeastType` names the 26-50 band
"Blade", not "Hunter", so the claim fails on that code path at id 26. -/
theorem C8_beast_type_name_counterexample :
    GameStateService.getBeastType 26 = "Blade"
    ∧ GameStateService.getBeastType 26 ≠ "Hunter" := by
  constructor <;> decide

/-- C8 (amended): for ids 1-75 both implementations agree on armor type
(Cloth/Hide/Metal per 25-id band) and tier (1..5 in 5-id sub-bands, tier 5 for
the last five of each band); `BeastEntity.getType` names the bands
Magic/Hunter/Brute while `GameStateService.getBeastType` names them by attack
type Magic/Blade/Bludgeon. -/
theorem C8_beast_classification_amended :
    ∀ id : ℕ, id ≤ 75 → 1 ≤ id →
      (BeastEntity.getTier id = GameStateService.getBeastTier id
        ∧ BeastEntity.getTier id = (id - 1) % 25 / 5 + 1
        ∧ BeastEntity.getArmorType id = GameStateService.getBeastArmorType id)
      ∧ (id ≤ 25 → BeastEntity.getType id = "Magic"
          ∧ GameStateService.getBeastType id = "Magic"
          ∧ BeastEntity.getArmorType id = "Cloth")
      ∧ (26 ≤ id → id ≤ 50 → BeastEntity.getType id = "Hunter"
          ∧ GameStateService.getBeastType id = "Blade"
          ∧ BeastEntity.getArmorType id = "Hide")
      ∧ (51 ≤ id → BeastEntity.getType id = "Brute"
          ∧ GameStateService.getBeastType id = "Bludgeon"
          ∧ BeastEntity.getArmorType id = "Metal") := by
  have hA : ∀ id : ℕ, id ≤ 75 → 1 ≤ id →
      BeastEntity.getTier id = GameStateService.getBeastTier id
      ∧ BeastEntity.getTier id = (id - 1) % 25 / 5 + 1
      ∧ BeastEntity.getArmorType id = GameStateService.getBeastArmorType id := by decide
  have hB : ∀ id : ℕ, id ≤ 25 → 1 ≤ id →
      BeastEntity.getType id = "Magic" ∧ GameStateService.getBeastType id = "Magic"
      ∧ BeastEntity.getArmorType id = "Cloth" := by decide
  have hC : ∀ id : ℕ, id ≤ 50 → 26 ≤ id →
      BeastEntity.getType id = "Hunter" ∧ GameStateService.getBeastType id = "Blade"
      ∧ BeastEntity.getArmorType id = "Hide" := by decide
  have hD : ∀ id : ℕ, id ≤ 75 → 51 ≤ id →
      BeastEntity.getType id = "Brute" ∧ GameStateService.getBeastType id = "Bludgeon"
      ∧ BeastEntity.getArmorType id = "Metal" := by decide
  intro id h75 h1
  exact ⟨hA id h75 h1, fun h => hB id h h1, fun h h50 => hC id h50 h, fun h => hD id h75 h⟩

/-- C8 witness: id 30 is a tier-1 Hunter/Blade beast with Hide armor in both
implementations. -/
theorem C8_beast_classification_amended_witness :
    BeastEntity.getTier 30 = GameStateService.getBeastTier 30
    ∧ BeastEntity.getTier 30 = (30 - 1) % 25 / 5 + 1
    ∧ BeastEntity.getType 30 = "Hunter"
    ∧ GameStateService.getBeastType 30 = "Blade" := by
  exact ⟨(C8_beast_classification_amended 30 (by decide) (by decide)).1.1,
    (C8_beast_classification_amended 30 (by decide) (by decide)).1.2.1,
    ((C8_beast_classification_amended 30 (by decide) (by decide)).2.2.1 (by decide) (by decide)).1,
    ((C8_beast_classification_amended 30 (by decide) (by decide)).2.2.1 (by decide) (by decide)).2.1⟩

/-- C9: a missing market payload, a string that fails `JSON.parse`, or a
payload that is not an array all yield the empty market list, in both
`GameStateService.parseMarket` and `IndexerClient.getMarketItems`; both
functions are total, so derivation never aborts on a malformed market. -/
theorem C9_market_parse_failures :
    ∀ (nameOf : ℕ → String) (priceBase : ℕ → ℕ) (charisma : ℕ),
      GameStateService.parseMarket nameOf priceBase MarketPayload.missing charisma = []
      ∧ GameStateService.parseMarket nameOf priceBase MarketPayload.strBad charisma = []
      ∧ GameStateService.parseMarket nameOf priceBase (MarketPayload.strOk Json.nonArray)
          charisma = []
      ∧ GameStateService.parseMarket nameOf priceBase (MarketPayload.direct Json.nonArray)
          charisma = []
      ∧ IndexerClient.getMarketItems MarketPayload.missing = []
      ∧ IndexerClient.getMarketItems MarketPayload.strBad = []
      ∧ IndexerClient.getMarketItems (MarketPayload.strOk Json.nonArray) = []
      ∧ IndexerClient.getMarketItems (MarketPayload.direct Json.nonArray) = [] := by
  intro nameOf priceBase charisma
  exact ⟨rfl, rfl, rfl, rfl, rfl, rfl, rfl, rfl⟩

end LS

namespace LS

lemma floor_three_halves (n : ℕ) :
    ⌊((n : ℚ)) * (3 / 2)⌋ = ((3 * n / 2 : ℕ) : ℤ) := by
  have h1 : ((n : ℚ)) * (3 / 2) = (((3 * n : ℕ) : ℤ) : ℚ) / ((2 : ℕ) : ℚ) := by
    push_cast
    ring
  rw [h1, Rat.floor_intCast_div_natCast]
  push_cast [Int.ofNat_div]
  norm_num

lemma previewSlotDamage_ge_two (beastId beastLevel beastTier : ℕ) (bPre bSuf : Option String)
    (neck armor : Option ItemView) :
    2 ≤ GameStateService.previewSlotDamage beastId beastLevel beastTier bPre bSuf neck armor := by
  rcases armor with _ | a <;>
    simp only [GameStateService.previewSlotDamage, BEAST_MIN_DAMAGE] <;>
    exact le_max_left _ _

/-- C5 counterexample: `GameContext.calculateBeastDamagePerSlot` assigns an
unarmored slot `Math.floor(maxDamage)` with no clamp; against a level-1
tier-5 beast (id 21) this is 1, below BEAST_MIN_DAMAGE = 2. -/
theorem C5_per_slot_floor_counterexample :
    (GameContext.calculateBeastDamagePerSlot 21 1 5 none none
        none none none none none none).head = 1
    ∧ ¬ BEAST_MIN_DAMAGE ≤
        (GameContext.calculateBeastDamagePerSlot 21 1 5 none none
          none none none none none none).head := by
  have h : (GameContext.calculateBeastDamagePerSlot 21 1 5 none none
      none none none none none none).head = 1 := by
    simp only [GameContext.calculateBeastDamagePerSlot, GameContext.perSlotValue]
    norm_num
  refine ⟨h, ?_⟩
  rw [h]
  decide

end LS

namespace LS

/-- C5 (amended): the player damage floor (≥ 4, base and critical) holds in
`calculateDamageVsBeast` and in the combat preview, and the beast per-slot
floor (≥ 2) holds in `CombatSystem.calculateBeastDamageAgainstArmor`, in the
preview slots and in `GameContext.calculateDamageAgainstArmor`; but
`GameContext.calculateBeastDamagePerSlot` assigns an unarmored slot the
unclamped `⌊beastLevel×(6−beastTier)×1.5⌋`, which only respects the floor when
`beastLevel×(6−beastTier) ≥ 2`. -/
theorem C5_damage_floors_amended :
    (∀ (weapon : Option WeaponView) (ring : Option RingView) (strength : ℕ) (beast : BeastView),
        4 ≤ (AdventurerEntity.calculateDamageVsBeast weapon ring strength beast).baseDamage
        ∧ 4 ≤ (AdventurerEntity.calculateDamageVsBeast weapon ring strength beast).criticalDamage)
    ∧ (∀ (weapon : Option WeaponView) (ring : Option RingView) (strength luck : ℕ)
          (beast : BeastView),
        4 ≤ GameStateService.previewPlayerBase
            (GameUtils.calculateCombatStats weapon ring strength luck beast)
        ∧ 4 ≤ GameStateService.previewPlayerCritical
            (GameUtils.calculateCombatStats weapon ring strength luck beast))
    ∧ (∀ (beastId beastLevel beastTier : ℕ) (bPre bSuf : Option String) (armor : ItemView)
          (neck : Option ItemView),
        2 ≤ CombatSystem.calculateBeastDamageAgainstArmor beastId beastLevel beastTier
              bPre bSuf armor neck)
    ∧ (∀ (beastId beastLevel beastTier : ℕ) (bPre bSuf : Option String)
          (neck armor : Option ItemView),
        2 ≤ GameStateService.previewSlotDamage beastId beastLevel beastTier bPre bSuf neck armor)
    ∧ (∀ (attackType : String) (beastLevel beastTier : ℕ) (bPre bSuf : Option String)
          (armor : ItemView) (neck : Option ItemView),
        2 ≤ GameContext.calculateDamageAgainstArmor attackType beastLevel beastTier
              bPre bSuf armor neck)
    ∧ (∀ (beastId beastLevel beastTier : ℕ) (bPre bSuf : Option String) (neck : Option ItemView),
        2 ≤ beastLevel * (6 - beastTier) →
        2 ≤ GameContext.perSlotValue beastId beastLevel beastTier bPre bSuf neck none) := by
  refine ⟨?_, ?_, ?_, ?_, ?_, ?_⟩
  · intro weapon ring strength beast
    rcases weapon with _ | w
    · exact ⟨by simp [AdventurerEntity.calculateDamageVsBeast, MIN_DAMAGE],
        by simp [AdventurerEntity.calculateDamageVsBeast, MIN_DAMAGE]⟩
    · constructor <;>
      · simp only [AdventurerEntity.calculateDamageVsBeast, MIN_DAMAGE]
        exact le_max_left _ _
  · intro weapon ring strength luck beast
    rcases weapon with _ | w
    · constructor
      · simp [GameStateService.previewPlayerBase, GameUtils.calculateCombatStats]
      · simp [GameStateService.previewPlayerCritical, GameStateService.previewPlayerBase,
          GameUtils.calculateCombatStats]
    · have hbase : 4 ≤ GameStateService.previewPlayerBase
          (GameUtils.calculateCombatStats (some w) ring strength luck beast) := by
        simp only [GameStateService.previewPlayerBase, GameUtils.calculateCombatStats,
          claimBaseDamage]
        exact le_trans (le_max_left _ _) (le_max_right _ _)
      exact ⟨hbase, le_trans hbase (le_max_left _ _)⟩
  · intro beastId beastLevel beastTier bPre bSuf armor neck
    simp only [CombatSystem.calculateBeastDamageAgainstArmor, BEAST_MIN_DAMAGE]
    exact le_max_left _ _
  · intro beastId beastLevel beastTier bPre bSuf neck armor
    exact previewSlotDamage_ge_two beastId beastLevel beastTier bPre bSuf neck armor
  · intro attackType beastLevel beastTier bPre bSuf armor neck
    simp only [GameContext.calculateDamageAgainstArmor, BEAST_MIN_DAMAGE]
    exact le_max_left _ _
  · intro beastId beastLevel beastTier bPre bSuf neck h2
    simp only [GameContext.perSlotValue]
    refine Int.le_floor.mpr ?_
    have : (2 : ℚ) ≤ ((beastLevel * (6 - beastTier) : ℕ) : ℚ) := by exact_mod_cast h2
    nlinarith

/-- C5 witness: against a level-2 tier-5 beast the unarmored GameContext slot
value respects the floor (2 ≤ beastLevel×(6−beastTier)). -/
theorem C5_damage_floors_amended_witness :
    2 ≤ 2 * (6 - 5) ∧ 2 ≤ GameContext.perSlotValue 21 2 5 none none none none := by
  exact ⟨by decide, C5_damage_floors_amended.2.2.2.2.2 21 2 5 none none none (by decide)⟩

end LS

namespace LS

/-- C10: in the combat preview each armor slot with no equipped item
contributes `max(2, ⌊beastLevel×(6−beastTier)×1.5⌋)`; the reported
`beastDamage.max` is the maximum of the five per-slot values, hence at least
that undefended value whenever any slot is empty. -/
theorem C10_preview_undefended (beastId beastLevel beastTier : ℕ) (bPre bSuf : Option String)
    (neck : Option ItemView) (head chest waist hand foot : Option ItemView) :
    GameStateService.previewSlotDamage beastId beastLevel beastTier bPre bSuf neck none
        = max 2 ⌊((beastLevel * (6 - beastTier) : ℕ) : ℚ) * (3 / 2)⌋
    ∧ GameStateService.previewBeastDamageMax beastId beastLevel beastTier bPre bSuf neck
          [head, chest, waist, hand, foot]
        = max (GameStateService.previewSlotDamage beastId beastLevel beastTier bPre bSuf neck head)
            (max (GameStateService.previewSlotDamage beastId beastLevel beastTier bPre bSuf neck chest)
              (max (GameStateService.previewSlotDamage beastId beastLevel beastTier bPre bSuf neck waist)
                (max (GameStateService.previewSlotDamage beastId beastLevel beastTier bPre bSuf neck hand)
                  (GameStateService.previewSlotDamage beastId beastLevel beastTier bPre bSuf neck foot))))
    ∧ (head = none ∨ chest = none ∨ waist = none ∨ hand = none ∨ foot = none →
        max 2 ⌊((beastLevel * (6 - beastTier) : ℕ) : ℚ) * (3 / 2)⌋
          ≤ GameStateService.previewBeastDamageMax beastId beastLevel beastTier bPre bSuf neck
              [head, chest, waist, hand, foot]) := by
  have hform : GameStateService.previewSlotDamage beastId beastLevel beastTier bPre bSuf neck none
      = max 2 ⌊((beastLevel * (6 - beastTier) : ℕ) : ℚ) * (3 / 2)⌋ := by
    simp only [GameStateService.previewSlotDamage, BEAST_MIN_DAMAGE, floor_three_halves]
  have hmax : GameStateService.previewBeastDamageMax beastId beastLevel beastTier bPre bSuf neck
        [head, chest, waist, hand, foot]
      = max (GameStateService.previewSlotDamage beastId beastLevel beastTier bPre bSuf neck head)
          (max (GameStateService.previewSlotDamage beastId beastLevel beastTier bPre bSuf neck chest)
            (max (GameStateService.previewSlotDamage beastId beastLevel beastTier bPre bSuf neck waist)
              (max (GameStateService.previewSlotDamage beastId beastLevel beastTier bPre bSuf neck hand)
                (GameStateService.previewSlotDamage beastId beastLevel beastTier bPre bSuf neck foot)))) := by
    simp only [GameStateService.previewBeastDamageMax, List.foldl, BEAST_MIN_DAMAGE]
    rw [max_eq_right (previewSlotDamage_ge_two beastId beastLevel beastTier bPre bSuf neck head)]
    simp only [max_assoc]
  refine ⟨hform, hmax, ?_⟩
  intro hempty
  rw [hmax, ← hform]
  rcases hempty with h | h | h | h | h <;> rw [← h]
  · exact le_max_left _ _
  · exact le_max_of_le_right (le_max_left _ _)
  · exact le_max_of_le_right (le_max_of_le_right (le_max_left _ _))
  · exact le_max_of_le_right (le_max_of_le_right (le_max_of_le_right (le_max_left _ _)))
  · exact le_max_of_le_right (le_max_of_le_right (le_max_of_le_right (le_max_right _ _)))

/-- C10 witness: with all five slots empty against beast id 21 (level 1,
tier 5), every slot takes the undefended value and the reported maximum
equals it. -/
theorem C10_preview_undefended_witness :
    GameStateService.previewSlotDamage 21 1 5 none none none none
        = max 2 ⌊((1 * (6 - 5) : ℕ) : ℚ) * (3 / 2)⌋
    ∧ max 2 ⌊((1 * (6 - 5) : ℕ) : ℚ) * (3 / 2)⌋
        ≤ GameStateService.previewBeastDamageMax 21 1 5 none none none
            [none, none, none, none, none] := by
  exact ⟨(C10_preview_undefended 21 1 5 none none none none none none none none).1,
    (C10_preview_undefended 21 1 5 none none none none none none none none).2.2
      (Or.inl rfl)⟩

end LS

namespace LS

/-- C6: for a combat preview (beast health ≥ 1), the outcome estimate reports
a win in `R = ⌈beastHealth / max(1, averagePlayerDamage)⌉` rounds taking
`(R − 1) × beastDamage` damage whenever `R ≤ ⌈adventurerHealth / beastDamage⌉`
(always, when `beastDamage ≤ 0`, the infinite case), and otherwise a loss in
`⌈adventurerHealth / beastDamage⌉` rounds; and the preview average
`max(1, base + (critChance/100)×(critical−base))` passed to the estimator
yields the same outcome as the unclamped claim-side average. -/
theorem C6_outcome_estimate (adventurerHealth beastHealth : ℤ)
    (averagePlayerDamage beastDamage : ℚ) (hb : 1 ≤ beastHealth) :
    (beastDamage ≤ 0 →
      GameStateService.estimateCombatOutcome adventurerHealth beastHealth
          averagePlayerDamage beastDamage
        = GameStateService.CombatOutcome.win
            ⌈(beastHealth : ℚ) / max 1 averagePlayerDamage⌉
            (((⌈(beastHealth : ℚ) / max 1 averagePlayerDamage⌉ - 1 : ℤ) : ℚ) * beastDamage))
    ∧ (0 < beastDamage →
        ⌈(beastHealth : ℚ) / max 1 averagePlayerDamage⌉
            ≤ ⌈(adventurerHealth : ℚ) / beastDamage⌉ →
        GameStateService.estimateCombatOutcome adventurerHealth beastHealth
            averagePlayerDamage beastDamage
          = GameStateService.CombatOutcome.win
              ⌈(beastHealth : ℚ) / max 1 averagePlayerDamage⌉
              (((⌈(beastHealth : ℚ) / max 1 averagePlayerDamage⌉ - 1 : ℤ) : ℚ) * beastDamage))
    ∧ (0 < beastDamage →
        ⌈(adventurerHealth : ℚ) / beastDamage⌉
            < ⌈(beastHealth : ℚ) / max 1 averagePlayerDamage⌉ →
        GameStateService.estimateCombatOutcome adventurerHealth beastHealth
            averagePlayerDamage beastDamage
          = GameStateService.CombatOutcome.lose ⌈(adventurerHealth : ℚ) / beastDamage⌉)
    ∧ (∀ cs : GameUtils.CombatStatsResult,
        GameStateService.estimateCombatOutcome adventurerHealth beastHealth
            (GameStateService.previewAveragePlayerDamage cs) beastDamage
          = GameStateService.estimateCombatOutcome adventurerHealth beastHealth
              ((GameStateService.previewPlayerBase cs : ℚ) +
                ((GameStateService.previewCritChance cs : ℚ) / 100) *
                  ((GameStateService.previewPlayerCritical cs : ℚ) -
                    (GameStateService.previewPlayerBase cs : ℚ)))
              beastDamage) := by
  have hpos : (0 : ℚ) < (beastHealth : ℚ) / max 1 averagePlayerDamage := by
    apply div_pos
    · exact_mod_cast lt_of_lt_of_le zero_lt_one hb
    · exact lt_of_lt_of_le zero_lt_one (le_max_left 1 averagePlayerDamage)
  have hR1 : 1 ≤ ⌈(beastHealth : ℚ) / max 1 averagePlayerDamage⌉ := Int.ceil_pos.mpr hpos
  have hmaxR : max 1 ⌈(beastHealth : ℚ) / max 1 averagePlayerDamage⌉
      = ⌈(beastHealth : ℚ) / max 1 averagePlayerDamage⌉ := max_eq_right hR1
  have hmax0 : max 0 (⌈(beastHealth : ℚ) / max 1 averagePlayerDamage⌉ - 1)
      = ⌈(beastHealth : ℚ) / max 1 averagePlayerDamage⌉ - 1 := max_eq_right (by omega)
  refine ⟨?_, ?_, ?_, ?_⟩
  · intro hbd
    simp only [GameStateService.estimateCombatOutcome, if_neg (not_lt.mpr hbd), hmaxR, hmax0]
  · intro hbd hle
    simp only [GameStateService.estimateCombatOutcome, if_pos hbd, hmaxR, hmax0, if_pos hle]
  · intro hbd hlt
    simp only [GameStateService.estimateCombatOutcome, if_pos hbd, hmaxR, hmax0,
      if_neg (not_le.mpr hlt)]
  · intro cs
    have hmm : max (1 : ℚ)
        (max 1 ((GameStateService.previewPlayerBase cs : ℚ) +
          ((GameStateService.previewCritChance cs : ℚ) / 100) *
            ((GameStateService.previewPlayerCritical cs : ℚ) -
              (GameStateService.previewPlayerBase cs : ℚ))))
        = max 1 ((GameStateService.previewPlayerBase cs : ℚ) +
            ((GameStateService.previewCritChance cs : ℚ) / 100) *
              ((GameStateService.previewPlayerCritical cs : ℚ) -
                (GameStateService.previewPlayerBase cs : ℚ))) := by
      rw [← max_assoc, max_self]
    simp only [GameStateService.estimateCombatOutcome,
      GameStateService.previewAveragePlayerDamage, hmm]

/-- C6 witness: beast health 21, adventurer health 100, average player damage
5, beast damage 4 gives a win in ⌈21/5⌉ = 5 rounds taking (5−1)×4 damage. -/
theorem C6_outcome_estimate_witness :
    GameStateService.estimateCombatOutcome 100 21 5 4
      = GameStateService.CombatOutcome.win ⌈(21 : ℚ) / max 1 5⌉
          (((⌈(21 : ℚ) / max 1 5⌉ - 1 : ℤ) : ℚ) * 4) := by
  refine (C6_outcome_estimate 100 21 5 4 (by decide)).2.1 (by norm_num) ?_
  have h5 : ⌈(21 : ℚ) / max 1 5⌉ = 5 := by
    rw [show max (1 : ℚ) 5 = 5 by norm_num, Int.ceil_eq_iff] <;> norm_num
  have h25 : ⌈(100 : ℚ) / 4⌉ = 25 := by
    rw [Int.ceil_eq_iff] <;> norm_num
  push_cast
  rw [h5, h25]
  norm_num

end LS

namespace LS

lemma rankIdx_inj : ∀ {a b : Option ℕ},
    GameContext.rankIdx a = GameContext.rankIdx b → a = b := by
  intro a b h
  rcases a with _ | n <;> rcases b with _ | m <;>
    simp_all [GameContext.rankIdx]

lemma idxBefore_iff_rankIdx (a b : Option ℕ) (hne : a ≠ b) :
    GameContext.idxBefore a b = true ↔ GameContext.rankIdx a < GameContext.rankIdx b := by
  rcases a with _ | n <;> rcases b with _ | m <;>
    simp_all [GameContext.idxBefore, GameContext.rankIdx, WithTop.coe_lt_top,
      Nat.cast_lt]

lemma feedLE_iff_rank (a b : GameContext.FeedEntry) :
    GameContext.feedLE a b = true ↔ GameContext.rank a ≤ GameContext.rank b := by
  rw [GameContext.feedLE, GameContext.rank, GameContext.rank, Prod.Lex.le_iff]
  by_cases ht : GameContext.feedTime a = GameContext.feedTime b
  · rw [if_neg (by simpa using ht)]
    by_cases hi : a.eventIndex = b.eventIndex
    · rw [if_neg (by simpa using hi)]
      simp only [ht, hi, neg_lt_neg_iff, lt_irrefl, false_or, true_and, Prod.Lex.le_iff]
      simp [decide_eq_true_eq]
    · rw [if_pos hi]
      constructor
      · intro h
        refine Or.inr ⟨by rw [ht], ?_⟩
        rw [Prod.Lex.le_iff]
        exact Or.inl ((idxBefore_iff_rankIdx _ _ hi).mp h)
      · rintro (h | ⟨-, h⟩)
        · exact absurd (by omega : GameContext.feedTime a = GameContext.feedTime b) (by simp_all)
        · rw [Prod.Lex.le_iff] at h
          rcases h with h | ⟨heq, -⟩
          · exact (idxBefore_iff_rankIdx _ _ hi).mpr h
          · exact absurd (rankIdx_inj heq) hi
  · rw [if_pos (by simpa using ht)]
    constructor
    · intro h
      simp only [decide_eq_true_eq] at h
      exact Or.inl (by omega)
    · rintro (h | ⟨heq, -⟩)
      · simp only [decide_eq_true_eq]
        omega
      · exact absurd (by omega : GameContext.feedTime a = GameContext.feedTime b) ht

lemma feedLE_trans (a b c : GameContext.FeedEntry) :
    GameContext.feedLE a b = true → GameContext.feedLE b c = true →
    GameContext.feedLE a c = true := by
  rw [feedLE_iff_rank, feedLE_iff_rank, feedLE_iff_rank]
  exact le_trans

lemma feedLE_total (a b : GameContext.FeedEntry) :
    GameContext.feedLE a b || GameContext.feedLE b a := by
  rcases le_total (GameContext.rank a) (GameContext.rank b) with h | h
  · simp [(feedLE_iff_rank a b).mpr h]
  · simp [(feedLE_iff_rank b a).mpr h]

lemma feedLE_antisymm_key (a b : GameContext.FeedEntry) :
    GameContext.feedLE a b = true → GameContext.feedLE b a = true →
    GameContext.feedKey a = GameContext.feedKey b := by
  intro h1 h2
  have hr : GameContext.rank a = GameContext.rank b :=
    le_antisymm ((feedLE_iff_rank a b).mp h1) ((feedLE_iff_rank b a).mp h2)
  rw [GameContext.rank, GameContext.rank] at hr
  have h1 : -(GameContext.feedTime a) = -(GameContext.feedTime b) := congrArg (·.1) hr
  have h2 : GameContext.rankIdx a.eventIndex = GameContext.rankIdx b.eventIndex :=
    congrArg (fun p => (ofLex p.2).1) hr
  have h3 : GameContext.kindWeight a.kind = GameContext.kindWeight b.kind :=
    congrArg (fun p => (ofLex p.2).2) hr
  rw [GameContext.feedKey, GameContext.feedKey, rankIdx_inj h2, h3]
  have : GameContext.feedTime a = GameContext.feedTime b := by omega
  rw [this]

lemma eq_of_perm_of_sorted_of_nodup_keys {α κ : Type} (le : α → α → Bool) (key : α → κ)
    (hanti : ∀ a b, le a b = true → le b a = true → key a = key b) :
    ∀ {l₁ l₂ : List α}, l₁.Perm l₂ → (l₁.map key).Nodup →
      l₁.Pairwise (fun a b => le a b = true) → l₂.Pairwise (fun a b => le a b = true) →
      l₁ = l₂ := by
  intro l₁
  induction l₁ with
  | nil =>
    intro l₂ hp _ _ _
    exact hp.nil_eq
  | cons a t ih =>
    intro l₂ hp hnd hs₁ hs₂
    cases l₂ with
    | nil => exact absurd hp (by simp)
    | cons b t₂ =>
      by_cases hab : a = b
      · subst hab
        rw [ih hp.cons_inv (by simpa using hnd.of_cons) hs₁.of_cons hs₂.of_cons]
      · have hbmem : b ∈ a :: t := hp.symm.subset (List.mem_cons_self b t₂)
        have hamem : a ∈ b :: t₂ := hp.subset (List.mem_cons_self a t)
        have hb_t : b ∈ t := by
          rcases List.mem_cons.mp hbmem with h | h
          · exact absurd h.symm hab
          · exact h
        have ha_t2 : a ∈ t₂ := by
          rcases List.mem_cons.mp hamem with h | h
          · exact absurd h hab
          · exact h
        have hle1 : le a b = true := (List.pairwise_cons.mp hs₁).1 b hb_t
        have hle2 : le b a = true := (List.pairwise_cons.mp hs₂).1 a ha_t2
        have hk : key a = key b := hanti a b hle1 hle2
        have hmem : key a ∈ t.map key := hk ▸ List.mem_map_of_mem key hb_t
        have hnotin : key a ∉ t.map key := by
          have := List.nodup_cons.mp (show (key a :: t.map key).Nodup by simpa using hnd)
          exact this.1
        exact absurd hmem hnotin

end LS

namespace LS

/-- C7 counterexample: two entries with identical timestamp, eventIndex and
kind (hence identical sort keys) but different payloads keep their
concatenation order under the stable sort, so permuting the input streams
changes the output feed — the comparator is not a total order on entries. -/
theorem C7_feed_order_counterexample :
    GameContext.recentEvents
        [[⟨"Attack", some 5, some 1, 0⟩], [⟨"Attack", some 5, some 1, 1⟩]]
      ≠ GameContext.recentEvents
        [[⟨"Attack", some 5, some 1, 1⟩], [⟨"Attack", some 5, some 1, 0⟩]] := by
  have h1 : GameContext.buildUnifiedActivityFeed
      [[⟨"Attack", some 5, some 1, 0⟩], [⟨"Attack", some 5, some 1, 1⟩]]
      = [⟨"Attack", some 5, some 1, 0⟩, ⟨"Attack", some 5, some 1, 1⟩] := by
    rw [GameContext.buildUnifiedActivityFeed]
    exact List.mergeSort_of_sorted (by decide)
  have h2 : GameContext.buildUnifiedActivityFeed
      [[⟨"Attack", some 5, some 1, 1⟩], [⟨"Attack", some 5, some 1, 0⟩]]
      = [⟨"Attack", some 5, some 1, 1⟩, ⟨"Attack", some 5, some 1, 0⟩] := by
    rw [GameContext.buildUnifiedActivityFeed]
    exact List.mergeSort_of_sorted (by decide)
  rw [GameContext.recentEvents, GameContext.recentEvents, h1, h2]
  decide

/-- C7 (amended): the unified feed is the concatenation of all streams sorted
by the comparator (timestamp descending, then eventIndex ascending with
unknown last, then kind weight) and `recentEvents` is its first 10 entries;
permuting the input streams yields the identical output provided no two
entries share the same (timestamp, eventIndex, kindWeight) sort key — entries
with fully identical keys keep their concatenation order (stable sort)
instead. -/
theorem C7_feed_merge_amended :
    (∀ s : List (List GameContext.FeedEntry),
        (GameContext.buildUnifiedActivityFeed s).Pairwise
            (fun a b => GameContext.feedLE a b = true)
        ∧ GameContext.recentEvents s = (GameContext.buildUnifiedActivityFeed s).take 10)
    ∧ (∀ s₁ s₂ : List (List GameContext.FeedEntry),
        s₁.flatten.Perm s₂.flatten →
        (s₁.flatten.map GameContext.feedKey).Nodup →
        GameContext.recentEvents s₁ = GameContext.recentEvents s₂) := by
  constructor
  · intro s
    exact ⟨List.sorted_mergeSort feedLE_trans feedLE_total s.flatten, rfl⟩
  · intro s₁ s₂ hperm hnd
    rw [GameContext.recentEvents, GameContext.recentEvents]
    congr 1
    apply eq_of_perm_of_sorted_of_nodup_keys GameContext.feedLE GameContext.feedKey
      feedLE_antisymm_key
    · exact ((List.mergeSort_perm s₁.flatten GameContext.feedLE).trans hperm).trans
        (List.mergeSort_perm s₂.flatten GameContext.feedLE).symm
    · exact (((List.mergeSort_perm s₁.flatten GameContext.feedLE).map
        GameContext.feedKey).nodup_iff).mpr hnd
    · exact List.sorted_mergeSort feedLE_trans feedLE_total s₁.flatten
    · exact List.sorted_mergeSort feedLE_trans feedLE_total s₂.flatten

/-- C7 witness: two streams holding entries with distinct sort keys produce
the same feed in either stream order. -/
theorem C7_feed_merge_amended_witness :
    GameContext.recentEvents
        [[⟨"Attack", some 5, some 1, 0⟩], [⟨"Discovery", some 5, some 2, 1⟩]]
      = GameContext.recentEvents
        [[⟨"Discovery", some 5, some 2, 1⟩], [⟨"Attack", some 5, some 1, 0⟩]] := by
  exact C7_feed_merge_amended.2
    [[⟨"Attack", some 5, some 1, 0⟩], [⟨"Discovery", some 5, some 2, 1⟩]]
    [[⟨"Discovery", some 5, some 2, 1⟩], [⟨"Attack", some 5, some 1, 0⟩]]
    (by decide) (by decide)

end LS
